import Mathlib

/-!
# Paginated List Loader — verification of the lazy-loading LWC components

Shallow embedding of the client-side pagination state machines of the
Salesforce lazy-loading components.  Each JavaScript component holds the
fields `contacts`/`accounts`, `offset`, `isLoading` and (in most variants)
`hasMoreRecords`; a page-load invocation checks a guard, issues at most one
asynchronous fetch, and updates the fields when the fetch settles.  Since
the guard is checked and set synchronously before the asynchronous call and
at most one fetch is in flight, one whole invocation is modelled as an
atomic step parameterised by the outcome of the fetch (`FetchOutcome`).
Each step returns the new component state together with a `Bool` that is
`true` exactly when the step issued a fetch call to the Apex service.

Records fetched from the service are opaque; they are modelled by their
stable payload (a `Nat`).  The loader-side record type `Rec` additionally
carries the derived `serialNumber` field added at merge time.
-/

namespace SalesforceLazyLoad

/-- A record held in the accumulated list: the opaque fetched payload plus
the derived `serialNumber` field the loader adds at merge time. -/
structure Rec where
  payload : Nat
  serialNumber : Nat
deriving DecidableEq

/-- The outcome of one settled fetch call to the paged-fetch service:
either the promise resolved with an ordered list of records, or it
rejected. -/
inductive FetchOutcome where
  | success (records : List Nat)
  | failure
deriving DecidableEq

/-- Component state of the `loadInitialData`-family variants
(`serverSideLazyLoadingInHtmlTableWithLoadMoreButton`,
`serverSideLazyLoadingInHtmlTableWithScrollBar`): fields `contacts`,
`offset`, `isLoading`, `hasMoreRecords`. -/
structure LoaderState where
  contacts : List Rec
  offset : Nat
  isLoading : Bool
  hasMoreRecords : Bool
deriving DecidableEq

/-- The field initialisers: `contacts = []`, `offset = 0`,
`isLoading = false`, `hasMoreRecords = true`. -/
def initState : LoaderState :=
  { contacts := [], offset := 0, isLoading := false, hasMoreRecords := true }

/-- `processContacts(contacts, currentLength)`: JavaScript
`contacts.map((contact, index) => ({...contact, serialNumber: currentLength + index + 1}))`. -/
def processContacts (contacts : List Nat) (currentLength : Nat) : List Rec :=
  contacts.mapIdx fun index contact => ⟨contact, currentLength + index + 1⟩

/-- `loadInitialData` of the html-table variants (part_000/part_001, and
`serverSideLazyLoadingInHtmlTableWithScrollBar` / part_005, whose body is
the same up to UI-only calls):

```js
if (!this.hasMoreRecords || this.isLoading) return;
this.isLoading = true;
try {
  const result = await getContacts(\x7b limitSize: this.pageSize, offset: this.offset \x7d);
  if (result.length > 0) {
    const newContacts = this.processContacts(result, this.contacts.length);
    this.contacts = [...this.contacts, ...newContacts];
    this.offset += this.pageSize;
    this.hasMoreRecords = result.length === this.pageSize;
  } else { this.hasMoreRecords = false; }
} catch (error) { console.error(...); } finally { this.isLoading = false; }
```

The returned `Bool` is `true` iff the step reached the fetch call. -/
def loadInitialData (pageSize : Nat) (s : LoaderState) (o : FetchOutcome) :
    LoaderState × Bool :=
  if !s.hasMoreRecords || s.isLoading then (s, false)
  else
    match o with
    | .success result =>
        if result.length > 0 then
          ({ contacts := s.contacts ++ processContacts result s.contacts.length,
             offset := s.offset + pageSize,
             isLoading := false,
             hasMoreRecords := result.length == pageSize }, true)
        else
          ({ s with hasMoreRecords := false, isLoading := false }, true)
    | .failure => ({ s with isLoading := false }, true)

/-- `get allLoaded()` of the html-table variants:
`return !this.hasMoreRecords && this.contacts.length > 0;`. -/
def allLoaded (s : LoaderState) : Bool :=
  !s.hasMoreRecords && decide (s.contacts.length > 0)

/-- A sequence of page-load triggers: each element of the list is the fetch
outcome the corresponding invocation of `loadInitialData` would observe if
it reaches the fetch call.  Returns the final state and how many fetch
calls were actually issued. -/
def runTriggers (pageSize : Nat) : List FetchOutcome → LoaderState → LoaderState × Nat
  | [], s => (s, 0)
  | o :: rest, s =>
      let step := loadInitialData pageSize s o
      let next := runTriggers pageSize rest step.1
      (next.1, (if step.2 then 1 else 0) + next.2)

/-- The Apex controllers (`LazyLoadingContactController.getContactsData`,
`LazyLoadingAccountController.getAccountsData`) run a stably ordered query
with `LIMIT limitSize OFFSET offset`: over a fixed dataset of
`totalRecords` records (payloads `1..totalRecords`) that is
`drop offset` then `take limitSize`. -/
def serviceFetch (totalRecords limitSize offset : Nat) : List Nat :=
  (((List.range totalRecords).map fun i => i + 1).drop offset).take limitSize

/-- Component state of the datatable load-more-button variants
(`serverSideLazyLoadingInDataTableWithLoadMoreButton`, both copies):
`accounts` (no serial numbers), `offset`, `isLoading`, `hasMoreRecords`. -/
structure DtState where
  accounts : List Nat
  offset : Nat
  isLoading : Bool
  hasMoreRecords : Bool
deriving DecidableEq

/-- The datatable variants' field initialisers. -/
def initDt : DtState :=
  { accounts := [], offset := 0, isLoading := false, hasMoreRecords := true }

/-- `loadData` of the force-app copy of
`serverSideLazyLoadingInDataTableWithLoadMoreButton.js`.  This copy has NO
`try`/`catch`/`finally`: `isLoading = true` is set before the awaits, and
`isLoading = false` is assigned only inside the two success branches, so a
rejected fetch leaves `isLoading` stuck at `true`. -/
def loadData_dt (pageSize : Nat) (s : DtState) (o : FetchOutcome) : DtState × Bool :=
  if !s.hasMoreRecords || s.isLoading then (s, false)
  else
    match o with
    | .success result =>
        if result.length > 0 then
          ({ accounts := s.accounts ++ result,
             offset := s.offset + pageSize,
             isLoading := false,
             hasMoreRecords := result.length == pageSize }, true)
        else
          ({ s with hasMoreRecords := false, isLoading := false }, true)
    | .failure => ({ s with isLoading := true }, true)

/-- `loadData` of the commented copy of the same component (part_002),
which wraps the body in `try { ... } catch (error) { console.error(...) }
finally { this.isLoading = false; }`. -/
def loadData_p2 (pageSize : Nat) (s : DtState) (o : FetchOutcome) : DtState × Bool :=
  if !s.hasMoreRecords || s.isLoading then (s, false)
  else
    match o with
    | .success result =>
        if result.length > 0 then
          ({ accounts := s.accounts ++ result,
             offset := s.offset + pageSize,
             isLoading := false,
             hasMoreRecords := result.length == pageSize }, true)
        else
          ({ s with hasMoreRecords := false, isLoading := false }, true)
    | .failure => ({ s with isLoading := false }, true)

/-- Component state of `serverSideLazyLoadingInDataTableWithScrollBar`
(part_004): `accounts`, `offset`, `isLoading`, `hasMoreRecords` and the
`loadMoreStatus` message (initially undefined, modelled as `none`). -/
structure P4State where
  accounts : List Nat
  offset : Nat
  isLoading : Bool
  hasMoreRecords : Bool
  loadMoreStatus : Option String
deriving DecidableEq

/-- `loadData` of part_004.  Note: this variant never touches `offset`;
the success branch runs for any resolved result (`if (result)` is true for
an empty array), appending it and recomputing `hasMoreRecords` and
`loadMoreStatus`; the `catch` sets `loadMoreStatus`; `finally` clears
`isLoading`. -/
def loadData_p4 (pageSize : Nat) (s : P4State) (o : FetchOutcome) : P4State × Bool :=
  if !s.hasMoreRecords || s.isLoading then (s, false)
  else
    match o with
    | .success result =>
        let more := result.length == pageSize
        ({ s with accounts := s.accounts ++ result,
                  hasMoreRecords := more,
                  loadMoreStatus :=
                    some (if more then "Loading accounts...." else "No more records to load"),
                  isLoading := false }, true)
    | .failure =>
        ({ s with loadMoreStatus := some "Error loading data", isLoading := false }, true)

/-- `loadMoreData(event)` of part_004, the handler of the datatable's
load-more event: it increments `this.offset += this.pageSize` BEFORE
awaiting `loadData()` (whose guard may then reject the call).  The
`event.target.isLoading` toggles are datatable UI state, not loader
state. -/
def loadMoreData_p4 (pageSize : Nat) (s : P4State) (o : FetchOutcome) : P4State × Bool :=
  loadData_p4 pageSize { s with offset := s.offset + pageSize } o

/-- Component state of `LazyLoadingAccountServerSideWithHtmlTableWithScrollBar`
(part_007, and the near-identical copy at the end of part_006): `accounts`,
`offset`, `isLoading` — this variant has NO `hasMoreRecords` flag. -/
structure P7State where
  accounts : List Rec
  offset : Nat
  isLoading : Bool
deriving DecidableEq

/-- `processAccounts(accounts, currentLength)` of part_007 — same serial
numbering rule as `processContacts`. -/
def processAccounts (accounts : List Nat) (currentLength : Nat) : List Rec :=
  accounts.mapIdx fun index account => ⟨account, currentLength + index + 1⟩

/-- `loadInitialData` of part_007: no guard at all; on success it REPLACES
`accounts` with `processAccounts(result, 0)` and increments `offset`
whether or not the result is empty; `catch` clears `isLoading`. -/
def loadInitialData_p7 (pageSize : Nat) (s : P7State) (o : FetchOutcome) :
    P7State × Bool :=
  match o with
  | .success result =>
      ({ accounts := processAccounts result 0,
         offset := s.offset + pageSize,
         isLoading := false }, true)
  | .failure => ({ s with isLoading := false }, true)

/-- `loadMoreData` of part_007: guarded only by `isLoading`; on a
non-empty result it appends `processAccounts(result, accounts.length)` and
increments `offset`; on an empty result or a rejection it only clears
`isLoading`. -/
def loadMoreData_p7 (pageSize : Nat) (s : P7State) (o : FetchOutcome) :
    P7State × Bool :=
  if s.isLoading then (s, false)
  else
    match o with
    | .success result =>
        if result.length > 0 then
          ({ accounts := s.accounts ++ processAccounts result s.accounts.length,
             offset := s.offset + pageSize,
             isLoading := false }, true)
        else ({ s with isLoading := false }, true)
    | .failure => ({ s with isLoading := false }, true)

/-- Component state of the full-client-cache variant
`clientSideLazyLoadingWithHtmlTableWithScrollBar` (part_006): the resident
cache `allContacts`, the rendered `visibleContacts`, `offset` and
`isLoading`. -/
structure ClientState where
  allContacts : List Rec
  visibleContacts : List Rec
  offset : Nat
  isLoading : Bool
deriving DecidableEq

/-- The client variant's field initialisers. -/
def initClient : ClientState :=
  { allContacts := [], visibleContacts := [], offset := 0, isLoading := false }

/-- `loadAllContacts` of the client variant, invoked once on mount from the
initial field values: on a non-empty result it fills the cache with
serial-numbered records, shows the first `pageSize` of them and sets
`offset = pageSize`; on an empty result or a rejection it only runs the
`finally` that clears the (already false) loading flag. -/
def loadAllContacts (pageSize : Nat) (o : FetchOutcome) : ClientState :=
  match o with
  | .success result =>
      if result.length > 0 then
        let processed := result.mapIdx fun idx contact => (⟨contact, idx + 1⟩ : Rec)
        { allContacts := processed,
          visibleContacts := processed.take pageSize,
          offset := pageSize,
          isLoading := false }
      else initClient
  | .failure => initClient

/-- `loadMoreData` of the client variant: it issues no fetch (it does not
even take a fetch outcome); guarded by `offset >= allContacts.length`, it
appends the cache slice `[offset, offset + pageSize)` to the visible list
and advances `offset`. -/
def loadMoreData_client (pageSize : Nat) (s : ClientState) : ClientState :=
  if s.offset ≥ s.allContacts.length then s
  else
    { s with visibleContacts :=
               s.visibleContacts ++ ((s.allContacts.drop s.offset).take pageSize),
             offset := s.offset + pageSize,
             isLoading := false }

/-- `get allLoaded()` of the client variant:
`visibleContacts.length >= allContacts.length && allContacts.length > 0`. -/
def allLoaded_client (s : ClientState) : Bool :=
  decide (s.visibleContacts.length ≥ s.allContacts.length)
    && decide (s.allContacts.length > 0)

/-- `k` successive invocations of the client variant's `loadMoreData`. -/
def iterLoadMore (pageSize : Nat) : Nat → ClientState → ClientState
  | 0, s => s
  | k + 1, s => iterLoadMore pageSize k (loadMoreData_client pageSize s)

/-- The client-cache state after the one initial fetch and `k` load-more
triggers. -/
def clientRun (pageSize : Nat) (o : FetchOutcome) (k : Nat) : ClientState :=
  iterLoadMore pageSize k (loadAllContacts pageSize o)

/-- `handleScroll` of the server scroll variant (part_005 /
`serverSideLazyLoadingInHtmlTableWithScrollBar`): with `buffer = 10`,
`if (scrollHeight - scrollTop - clientHeight < buffer && !this.isLoading)
this.loadMoreData();` where `loadMoreData` just calls `loadInitialData`.
The back-to-top toggling is UI-only and not modelled.  Geometry values are
pixel quantities, modelled as integers. -/
def handleScroll (scrollTop scrollHeight clientHeight : Int) (pageSize : Nat)
    (s : LoaderState) (o : FetchOutcome) : LoaderState × Bool :=
  if scrollHeight - scrollTop - clientHeight < 10 ∧ s.isLoading = false then
    loadInitialData pageSize s o
  else (s, false)

/-- `handleScroll` of the client-cache variant (part_006): the guard
additionally requires `!this.allLoaded`; the body calls `loadMoreData`,
which issues no fetch. -/
def handleScroll_client (scrollTop scrollHeight clientHeight : Int) (pageSize : Nat)
    (s : ClientState) : ClientState :=
  if scrollHeight - scrollTop - clientHeight < 10 ∧ s.isLoading = false
      ∧ allLoaded_client s = false then
    loadMoreData_client pageSize s
  else s

/-- First fetch of the spec's 12-record scenario (pageSize 5). -/
def c1_state1 : LoaderState :=
  (loadInitialData 5 initState (.success (serviceFetch 12 5 initState.offset))).1

/-- Second fetch of the 12-record scenario. -/
def c1_state2 : LoaderState :=
  (loadInitialData 5 c1_state1 (.success (serviceFetch 12 5 c1_state1.offset))).1

/-- Third fetch of the 12-record scenario (the service returns 2 records). -/
def c1_state3 : LoaderState :=
  (loadInitialData 5 c1_state2 (.success (serviceFetch 12 5 c1_state2.offset))).1

/-- part_007 over a 7-record service: the initial load (5 records). -/
def c4_state1 : P7State :=
  (loadInitialData_p7 5 { accounts := [], offset := 0, isLoading := false }
    (.success (serviceFetch 7 5 0))).1

/-- part_007 over a 7-record service: the second load returns 2 < 5
records. -/
def c4_state2 : P7State :=
  (loadMoreData_p7 5 c4_state1 (.success (serviceFetch 7 5 c4_state1.offset))).1

/-- The client-cache state after the initial fetch of an empty dataset. -/
def c8_empty : ClientState := loadAllContacts 5 (.success [])

/-- `get allLoaded()` of the datatable load-more-button variants:
`return !this.hasMoreRecords && this.accounts.length > 0;`. -/
def allLoaded_dt (s : DtState) : Bool :=
  !s.hasMoreRecords && decide (s.accounts.length > 0)

/-- The loader state produced by a first fetch that resolves with zero
records: `hasMoreRecords` is cleared and nothing else changes. -/
def emptyFirstFetch (pageSize : Nat) : LoaderState :=
  (loadInitialData pageSize initState (.success [])).1

lemma loadInitialData_guard (pageSize : Nat) (s : LoaderState) (o : FetchOutcome)
    (h : (!s.hasMoreRecords || s.isLoading) = true) :
    loadInitialData pageSize s o = (s, false) := by
  simp [loadInitialData, h]

lemma runTriggers_stopped (pageSize : Nat) (l : List FetchOutcome) :
    ∀ s : LoaderState, s.hasMoreRecords = false → runTriggers pageSize l s = (s, 0) := by
  induction l with
  | nil => intro s _; rfl
  | cons o rest ih =>
      intro s h
      have hg : loadInitialData pageSize s o = (s, false) :=
        loadInitialData_guard pageSize s o (by simp [h])
      simp [runTriggers, hg, ih s h]

/-- C1: when a fetch resolves with `N` records, `0 < N < pageSize`, the
loader appends the records and clears `hasMoreRecords`, but `offset` does
NOT stay unchanged: the success branch runs `offset += pageSize`
unconditionally, so in the 12-record, pageSize-5 scenario the offset after
the third fetch is 15, not 10. -/
theorem C1_short_page_offset_refuted :
    (serviceFetch 12 5 c1_state2.offset).length = 2
      ∧ c1_state2.offset = 10
      ∧ c1_state3.hasMoreRecords = false
      ∧ c1_state3.contacts.length = 12
      ∧ c1_state3.offset = 15
      ∧ ¬ c1_state3.offset = 10 := by
  decide

/-- C1 (amended): on a fetch resolving with `N` records, `0 < N < pageSize`,
an accepted invocation appends the serial-numbered records, clears
`hasMoreRecords`, and increases `offset` by `pageSize` (rather than leaving
it unchanged); no further fetch consumes the offset since the terminal
guard now rejects every trigger. -/
theorem C1_short_page_amended (pageSize : Nat) (s : LoaderState) (page : List Nat)
    (h1 : s.hasMoreRecords = true) (h2 : s.isLoading = false)
    (h3 : 0 < page.length) (h4 : page.length < pageSize) :
    loadInitialData pageSize s (.success page) =
      ({ contacts := s.contacts ++ processContacts page s.contacts.length,
         offset := s.offset + pageSize,
         isLoading := false,
         hasMoreRecords := false }, true) := by
  have hne : (page.length == pageSize) = false := by
    simp only [beq_eq_false_iff_ne]; omega
  simp [loadInitialData, h1, h2, h3, hne]

/-- Witness for C1's amended theorem at pageSize 5, the initial state and a
2-record page. -/
theorem C1_short_page_amended_witness :
    initState.hasMoreRecords = true ∧ initState.isLoading = false
      ∧ 0 < [7, 8].length ∧ [7, 8].length < 5
      ∧ loadInitialData 5 initState (.success [7, 8]) =
          ({ contacts := initState.contacts ++ processContacts [7, 8] initState.contacts.length,
             offset := initState.offset + 5,
             isLoading := false,
             hasMoreRecords := false }, true) :=
  ⟨rfl, rfl, by decide, by decide,
    C1_short_page_amended 5 initState [7, 8] rfl rfl (by decide) (by decide)⟩

/-- C2: the force-app copy of
`serverSideLazyLoadingInDataTableWithLoadMoreButton.js` has no
`try`/`catch`/`finally`, so a rejected fetch leaves `isLoading` stuck at
`true` and every subsequent trigger is guarded out — no retry can ever
start.  Evaluated here at the failing input (initial state, fetch rejects);
the commented copy of the same component (part_002) and the html-table
variants do reset the flag on the same input. -/
theorem C2_missing_cleanup_eval :
    (loadData_dt 5 initDt .failure).1.isLoading = true
      ∧ (loadData_dt 5 initDt .failure).1.accounts = []
      ∧ (loadData_dt 5 initDt .failure).1.offset = 0
      ∧ (loadData_dt 5 initDt .failure).1.hasMoreRecords = true
      ∧ (loadData_dt 5 (loadData_dt 5 initDt .failure).1 (.success [1, 2, 3, 4, 5])).2 = false
      ∧ (loadData_dt 5 (loadData_dt 5 initDt .failure).1 (.success [1, 2, 3, 4, 5])).1
          = (loadData_dt 5 initDt .failure).1
      ∧ (loadData_p2 5 initDt .failure).1.isLoading = false
      ∧ (loadInitialData 5 initState .failure).1.isLoading = false := by
  decide

/-- C5: invoking the guarded page-load operation while `isLoading` is true
is a no-op in the html-table variants (`loadInitialData`), the datatable
scroll variant (`loadData` of part_004) and both datatable button copies
(`loadData`): no fetch is issued and the state — accumulated list, offset,
loading and terminal flags — is returned exactly as it was. -/
theorem C5_inflight_guard (pageSize : Nat) (o : FetchOutcome)
    (s : LoaderState) (t : P4State) (d : DtState)
    (hs : s.isLoading = true) (ht : t.isLoading = true) (hd : d.isLoading = true) :
    loadInitialData pageSize s o = (s, false)
      ∧ loadData_p4 pageSize t o = (t, false)
      ∧ loadData_dt pageSize d o = (d, false)
      ∧ loadData_p2 pageSize d o = (d, false) := by
  refine ⟨?_, ?_, ?_, ?_⟩
  · simp [loadInitialData, hs]
  · simp [loadData_p4, ht]
  · simp [loadData_dt, hd]
  · simp [loadData_p2, hd]

/-- Witness for C5 at concrete in-flight states. -/
theorem C5_inflight_guard_witness :
    loadInitialData 5 { contacts := [], offset := 5, isLoading := true, hasMoreRecords := true }
        (.success [1, 2, 3, 4, 5])
      = ({ contacts := [], offset := 5, isLoading := true, hasMoreRecords := true }, false)
      ∧ loadData_p4 5
          { accounts := [9], offset := 5, isLoading := true, hasMoreRecords := true,
            loadMoreStatus := none } (.success [1, 2, 3, 4, 5])
        = ({ accounts := [9], offset := 5, isLoading := true, hasMoreRecords := true,
             loadMoreStatus := none }, false)
      ∧ loadData_dt 5 { accounts := [9], offset := 5, isLoading := true, hasMoreRecords := true }
          (.success [1, 2, 3, 4, 5])
        = ({ accounts := [9], offset := 5, isLoading := true, hasMoreRecords := true }, false)
      ∧ loadData_p2 5 { accounts := [9], offset := 5, isLoading := true, hasMoreRecords := true }
          (.success [1, 2, 3, 4, 5])
        = ({ accounts := [9], offset := 5, isLoading := true, hasMoreRecords := true }, false) :=
  C5_inflight_guard 5 (.success [1, 2, 3, 4, 5])
    { contacts := [], offset := 5, isLoading := true, hasMoreRecords := true }
    { accounts := [9], offset := 5, isLoading := true, hasMoreRecords := true,
      loadMoreStatus := none }
    { accounts := [9], offset := 5, isLoading := true, hasMoreRecords := true }
    rfl rfl rfl

/-- C7: in the html-table variants a failed fetch changes nothing at all:
the guard-rejected call returns the state untouched, and an accepted call
that ends in the `catch` path only runs the `finally`, restoring
`isLoading` to the `false` it had before the fetch began — so the state
after the failure equals the state before it (in particular `accumulated`,
`offset` and `hasMoreRecords` are untouched). -/
theorem C7_failed_fetch_frame (pageSize : Nat) (s : LoaderState) :
    (loadInitialData pageSize s .failure).1 = s := by
  by_cases h : (!s.hasMoreRecords || s.isLoading) = true
  · simp [loadInitialData, h]
  · have hl : s.isLoading = false := by
      simp only [Bool.or_eq_true, not_or, Bool.not_eq_true] at h
      exact h.2
    cases s
    simp_all [loadInitialData]

/-- C3: `offset` is NOT only changed by successful non-empty fetches: in
the datatable scroll variant (part_004) the load-more handler increments
`offset` by `pageSize` before `loadData`'s guard can reject the call, so a
trigger arriving while a fetch is in flight still moves `offset` (from 0
to 5 here) although no fetch is issued. -/
theorem C3_offset_on_rejected_trigger_refuted :
    (loadMoreData_p4 5
        { accounts := [], offset := 0, isLoading := true, hasMoreRecords := true,
          loadMoreStatus := none } .failure).2 = false
      ∧ (loadMoreData_p4 5
          { accounts := [], offset := 0, isLoading := true, hasMoreRecords := true,
            loadMoreStatus := none } .failure).1.offset = 5
      ∧ ¬ (loadMoreData_p4 5
            { accounts := [], offset := 0, isLoading := true, hasMoreRecords := true,
              loadMoreStatus := none } .failure).1.offset = 0 := by
  decide

/-- C3 (amended): `offset` increases by exactly `pageSize` after each
accepted, successful fetch returning at least one record, and is changed in
no other circumstance (not on a failed fetch, an empty result, or a
guard-rejected trigger), in the html-table variants' `loadInitialData`,
both datatable-button copies' `loadData`, and part_007's `loadMoreData`.
The two exceptions are part_004's `loadMoreData`, which adds `pageSize` to
`offset` on every trigger — before the guard and regardless of the fetch
outcome — and part_007's `loadInitialData`, which increments `offset` on
every resolved fetch, even one returning zero records. -/
theorem C3_offset_amended (pageSize : Nat) (o : FetchOutcome) :
    (∀ s : LoaderState, (loadInitialData pageSize s o).1.offset =
        match o with
        | .success page =>
            if s.hasMoreRecords = true ∧ s.isLoading = false ∧ page.length > 0 then
              s.offset + pageSize
            else s.offset
        | .failure => s.offset)
      ∧ (∀ d : DtState, (loadData_dt pageSize d o).1.offset =
          match o with
          | .success page =>
              if d.hasMoreRecords = true ∧ d.isLoading = false ∧ page.length > 0 then
                d.offset + pageSize
              else d.offset
          | .failure => d.offset)
      ∧ (∀ d : DtState, (loadData_p2 pageSize d o).1.offset =
          match o with
          | .success page =>
              if d.hasMoreRecords = true ∧ d.isLoading = false ∧ page.length > 0 then
                d.offset + pageSize
              else d.offset
          | .failure => d.offset)
      ∧ (∀ t : P7State, (loadMoreData_p7 pageSize t o).1.offset =
          match o with
          | .success page =>
              if t.isLoading = false ∧ page.length > 0 then t.offset + pageSize
              else t.offset
          | .failure => t.offset)
      ∧ (∀ t : P7State, (loadInitialData_p7 pageSize t o).1.offset =
          match o with
          | .success _ => t.offset + pageSize
          | .failure => t.offset)
      ∧ ∀ u : P4State, (loadMoreData_p4 pageSize u o).1.offset = u.offset + pageSize := by
  refine ⟨?_, ?_, ?_, ?_, ?_, ?_⟩
  · intro s
    cases o with
    | failure =>
        by_cases h : (!s.hasMoreRecords || s.isLoading) = true
        · simp [loadInitialData, h]
        · simp [loadInitialData, h]
    | success page =>
        by_cases h1 : s.hasMoreRecords = true
        · by_cases h2 : s.isLoading = false
          · by_cases h3 : page.length > 0
            · simp [loadInitialData, h1, h2, h3]
            · simp [loadInitialData, h1, h2, h3]
          · have h2' : s.isLoading = true := by
              cases hv : s.isLoading
              · exact absurd hv h2
              · rfl
            simp [loadInitialData, h1, h2, h2']
        · have h1' : s.hasMoreRecords = false := by
            cases hv : s.hasMoreRecords
            · rfl
            · exact absurd hv h1
          simp [loadInitialData, h1, h1']
  · intro d
    cases o with
    | failure =>
        by_cases h : (!d.hasMoreRecords || d.isLoading) = true
        · simp [loadData_dt, h]
        · simp [loadData_dt, h]
    | success page =>
        by_cases h1 : d.hasMoreRecords = true
        · by_cases h2 : d.isLoading = false
          · by_cases h3 : page.length > 0
            · simp [loadData_dt, h1, h2, h3]
            · simp [loadData_dt, h1, h2, h3]
          · have h2' : d.isLoading = true := by
              cases hv : d.isLoading
              · exact absurd hv h2
              · rfl
            simp [loadData_dt, h1, h2, h2']
        · have h1' : d.hasMoreRecords = false := by
            cases hv : d.hasMoreRecords
            · rfl
            · exact absurd hv h1
          simp [loadData_dt, h1, h1']
  · intro d
    cases o with
    | failure =>
        by_cases h : (!d.hasMoreRecords || d.isLoading) = true
        · simp [loadData_p2, h]
        · simp [loadData_p2, h]
    | success page =>
        by_cases h1 : d.hasMoreRecords = true
        · by_cases h2 : d.isLoading = false
          · by_cases h3 : page.length > 0
            · simp [loadData_p2, h1, h2, h3]
            · simp [loadData_p2, h1, h2, h3]
          · have h2' : d.isLoading = true := by
              cases hv : d.isLoading
              · exact absurd hv h2
              · rfl
            simp [loadData_p2, h1, h2, h2']
        · have h1' : d.hasMoreRecords = false := by
            cases hv : d.hasMoreRecords
            · rfl
            · exact absurd hv h1
          simp [loadData_p2, h1, h1']
  · intro t
    cases o with
    | failure =>
        by_cases hl : t.isLoading = true
        · simp [loadMoreData_p7, hl]
        · have hl' : t.isLoading = false := by
            cases hv : t.isLoading
            · rfl
            · exact absurd hv hl
          simp [loadMoreData_p7, hl']
    | success page =>
        by_cases hl : t.isLoading = true
        · simp [loadMoreData_p7, hl]
        · have hl' : t.isLoading = false := by
            cases hv : t.isLoading
            · rfl
            · exact absurd hv hl
          by_cases hp : page.length > 0
          · simp [loadMoreData_p7, hl', hp]
          · simp [loadMoreData_p7, hl', hp]
  · intro t
    cases o <;> simp [loadInitialData_p7]
  · intro u
    unfold loadMoreData_p4 loadData_p4
    by_cases h : (!u.hasMoreRecords || u.isLoading) = true
    · simp [h]
    · cases o <;> simp [h]

/-- C4: "no further fetch call is issued, in every variant" fails for
part_007, which has no `hasMoreRecords` flag: over a 7-record service with
pageSize 5, the second load returns 2 < 5 records, yet a third trigger
still issues a fetch (which returns empty). -/
theorem C4_no_terminal_flag_refuted :
    (serviceFetch 7 5 c4_state1.offset).length = 2
      ∧ (serviceFetch 7 5 c4_state1.offset).length < 5
      ∧ c4_state2.isLoading = false
      ∧ (loadMoreData_p7 5 c4_state2 (.success (serviceFetch 7 5 c4_state2.offset))).2
          = true := by
  decide

/-- C4 (amended): an accepted fetch returning fewer than `pageSize` records
clears `hasMoreRecords` in every variant that keeps the flag, and from then
on every subsequent invocation of the guarded page-load operation
(`loadInitialData` of the html-table variants, `loadData` of both
datatable-button copies and of part_004) is a no-op: the state is returned
unchanged and zero fetch calls are issued, over any sequence of further
triggers.  Two variants fall short of the claim: part_004's load-more
trigger still adds `pageSize` to `offset` before its `loadData` guard
rejects (no fetch, but the state changes), and part_007 keeps no
`hasMoreRecords` flag at all, so a subsequent trigger issues a further
fetch (which returns empty and leaves accounts and offset unchanged). -/
theorem C4_terminal_amended (pageSize : Nat) (s : LoaderState) (page : List Nat)
    (outcomes : List FetchOutcome)
    (h1 : s.hasMoreRecords = true) (h2 : s.isLoading = false)
    (h3 : page.length < pageSize) :
    (loadInitialData pageSize s (.success page)).1.hasMoreRecords = false
      ∧ runTriggers pageSize outcomes (loadInitialData pageSize s (.success page)).1
          = ((loadInitialData pageSize s (.success page)).1, 0)
      ∧ (∀ d : DtState, d.hasMoreRecords = true → d.isLoading = false →
          (loadData_dt pageSize d (.success page)).1.hasMoreRecords = false
            ∧ (loadData_p2 pageSize d (.success page)).1.hasMoreRecords = false)
      ∧ (∀ u : P4State, u.hasMoreRecords = true → u.isLoading = false →
          (loadData_p4 pageSize u (.success page)).1.hasMoreRecords = false)
      ∧ (∀ (d : DtState) (o : FetchOutcome), d.hasMoreRecords = false →
          loadData_dt pageSize d o = (d, false) ∧ loadData_p2 pageSize d o = (d, false))
      ∧ (∀ (u : P4State) (o : FetchOutcome), u.hasMoreRecords = false →
          loadData_p4 pageSize u o = (u, false)
            ∧ (loadMoreData_p4 pageSize u o).2 = false
            ∧ (loadMoreData_p4 pageSize u o).1 = { u with offset := u.offset + pageSize })
      ∧ ∀ t : P7State, t.isLoading = false →
          loadMoreData_p7 pageSize t (.success []) = (t, true) := by
  have hne : (page.length == pageSize) = false := by
    simp only [beq_eq_false_iff_ne]; omega
  have hm : (loadInitialData pageSize s (.success page)).1.hasMoreRecords = false := by
    by_cases hp : page.length > 0
    · simp [loadInitialData, h1, h2, hp, hne]
    · simp [loadInitialData, h1, h2, hp]
  refine ⟨hm, runTriggers_stopped pageSize outcomes _ hm, ?_, ?_, ?_, ?_, ?_⟩
  · intro d hd1 hd2
    by_cases hp : page.length > 0
    · constructor <;> simp [loadData_dt, loadData_p2, hd1, hd2, hp, hne]
    · constructor <;> simp [loadData_dt, loadData_p2, hd1, hd2, hp]
  · intro u hu1 hu2
    simp [loadData_p4, hu1, hu2, hne]
  · intro d o hd
    constructor <;> simp [loadData_dt, loadData_p2, hd]
  · intro u o hu
    refine ⟨by simp [loadData_p4, hu], ?_, ?_⟩ <;>
      simp [loadMoreData_p4, loadData_p4, hu]
  · intro t ht
    cases t
    simp_all [loadMoreData_p7]

/-- Witness for C4's amended theorem: pageSize 5, initial state, a
2-record page, then two further triggers. -/
theorem C4_terminal_amended_witness :
    initState.hasMoreRecords = true ∧ initState.isLoading = false ∧ [1, 2].length < 5
      ∧ (loadInitialData 5 initState (.success [1, 2])).1.hasMoreRecords = false
      ∧ runTriggers 5 [.success [3, 4, 5], .failure]
            (loadInitialData 5 initState (.success [1, 2])).1
          = ((loadInitialData 5 initState (.success [1, 2])).1, 0) :=
  ⟨rfl, rfl, by decide,
    (C4_terminal_amended 5 initState [1, 2] [.success [3, 4, 5], .failure]
      rfl rfl (by decide)).1,
    (C4_terminal_amended 5 initState [1, 2] [.success [3, 4, 5], .failure]
      rfl rfl (by decide)).2.1⟩

/-- C10: `allLoaded` is true exactly when `hasMoreRecords` is false and the
accumulated list is non-empty (in the html-table and datatable button
variants alike); for a dataset whose first fetch returns zero records
`hasMoreRecords` is cleared with `contacts` still empty, so every further
trigger is a no-op issuing no fetch and `allLoaded` remains false forever. -/
theorem C10_allLoaded_characterization (pageSize : Nat) :
    (∀ s : LoaderState, allLoaded s = true ↔ (s.hasMoreRecords = false ∧ s.contacts ≠ []))
      ∧ (∀ d : DtState, allLoaded_dt d = true ↔ (d.hasMoreRecords = false ∧ d.accounts ≠ []))
      ∧ emptyFirstFetch pageSize
          = { contacts := [], offset := 0, isLoading := false, hasMoreRecords := false }
      ∧ allLoaded (emptyFirstFetch pageSize) = false
      ∧ ∀ l : List FetchOutcome,
          runTriggers pageSize l (emptyFirstFetch pageSize) = (emptyFirstFetch pageSize, 0) := by
  have hempty : emptyFirstFetch pageSize
      = { contacts := [], offset := 0, isLoading := false, hasMoreRecords := false } := rfl
  refine ⟨?_, ?_, hempty, ?_, ?_⟩
  · intro s
    simp [allLoaded, List.length_pos, Bool.and_eq_true, and_comm]
  · intro d
    simp [allLoaded_dt, List.length_pos, Bool.and_eq_true, and_comm]
  · rw [hempty]; rfl
  · intro l
    exact runTriggers_stopped pageSize l _ (by rw [hempty])

lemma processContacts_map_serial (page : List Nat) :
    ∀ n : Nat, (processContacts page n).map Rec.serialNumber = List.range' (n + 1) page.length := by
  induction page with
  | nil => intro n; simp [processContacts]
  | cons a l ih =>
      intro n
      have harg : (fun i => (fun index contact => (⟨contact, n + index + 1⟩ : Rec)) (i + 1))
          = fun index contact => (⟨contact, (n + 1) + index + 1⟩ : Rec) := by
        funext i c
        show (⟨c, n + (i + 1) + 1⟩ : Rec) = ⟨c, (n + 1) + i + 1⟩
        congr 1
        omega
      rw [processContacts, List.mapIdx_cons, harg]
      show Rec.serialNumber ⟨a, n + 0 + 1⟩ ::
        (processContacts l (n + 1)).map Rec.serialNumber = _
      rw [ih (n + 1)]
      show (n + 0 + 1) :: List.range' (n + 1 + 1) l.length = List.range' (n + 1) (l.length + 1)
      rw [List.range'_succ]

lemma processContacts_length (page : List Nat) (n : Nat) :
    (processContacts page n).length = page.length := by
  have h := congrArg List.length (processContacts_map_serial page n)
  simpa using h

lemma step_serial (pageSize : Nat) (s : LoaderState) (o : FetchOutcome)
    (h : s.contacts.map Rec.serialNumber = List.range' 1 s.contacts.length) :
    (loadInitialData pageSize s o).1.contacts.map Rec.serialNumber
      = List.range' 1 (loadInitialData pageSize s o).1.contacts.length := by
  by_cases hg : (!s.hasMoreRecords || s.isLoading) = true
  · simpa [loadInitialData, hg] using h
  · cases o with
    | failure => simpa [loadInitialData, hg] using h
    | success page =>
        by_cases hp : page.length > 0
        · have hr := List.range'_append 1 s.contacts.length page.length 1
          simp only [Nat.one_mul] at hr
          simp only [loadInitialData, hg, hp, Bool.false_eq_true, if_false, if_true,
            reduceIte, List.map_append, List.length_append]
          rw [h, processContacts_map_serial, processContacts_length,
            Nat.add_comm 1 s.contacts.length] at *
          rw [← Nat.add_comm page.length s.contacts.length]
          exact hr
        · simpa [loadInitialData, hg, hp] using h

lemma runTriggers_serial (pageSize : Nat) (l : List FetchOutcome) :
    ∀ s : LoaderState,
      s.contacts.map Rec.serialNumber = List.range' 1 s.contacts.length →
      (runTriggers pageSize l s).1.contacts.map Rec.serialNumber
        = List.range' 1 (runTriggers pageSize l s).1.contacts.length := by
  induction l with
  | nil => intro s h; exact h
  | cons o rest ih =>
      intro s h
      simp only [runTriggers]
      exact ih _ (step_serial pageSize s o h)

/-- C6: after any sequence of page-load steps from the initial state, the
serial numbers of the accumulated list are exactly `1, 2, ...,
accumulated.length` — contiguous, gapless, duplicate-free (each merge
stamps `serialNumber = currentLength + index + 1` via `processContacts`);
and every step preserves the already-accumulated records unchanged as a
prefix, so assigned serial numbers are never recomputed. -/
theorem C6_serial_numbers (pageSize : Nat) (outcomes : List FetchOutcome) :
    ((runTriggers pageSize outcomes initState).1.contacts.map Rec.serialNumber
        = List.range' 1 (runTriggers pageSize outcomes initState).1.contacts.length)
      ∧ ∀ (s : LoaderState) (o : FetchOutcome),
          (loadInitialData pageSize s o).1.contacts.take s.contacts.length = s.contacts := by
  constructor
  · exact runTriggers_serial pageSize outcomes initState (by simp [initState])
  · intro s o
    by_cases hg : (!s.hasMoreRecords || s.isLoading) = true
    · simp [loadInitialData, hg]
    · cases o with
      | failure => simp [loadInitialData, hg]
      | success page =>
          by_cases hp : page.length > 0
          · simp [loadInitialData, hg, hp, List.take_left]
          · simp [loadInitialData, hg, hp]

lemma take_min_eq (l : List Rec) (n : Nat) : l.take (min n l.length) = l.take n := by
  rcases Nat.le_total n l.length with h | h
  · rw [Nat.min_eq_left h]
  · rw [Nat.min_eq_right h, List.take_length, List.take_of_length_le h]

lemma loadMoreData_client_cache (pageSize : Nat) (s : ClientState) :
    (loadMoreData_client pageSize s).allContacts = s.allContacts := by
  unfold loadMoreData_client
  by_cases hg : s.offset ≥ s.allContacts.length <;> simp [hg]

lemma client_inv_step (pageSize : Nat) (s : ClientState)
    (h : s.visibleContacts = s.allContacts.take s.offset) :
    (loadMoreData_client pageSize s).visibleContacts
      = (loadMoreData_client pageSize s).allContacts.take
          (loadMoreData_client pageSize s).offset := by
  unfold loadMoreData_client
  by_cases hg : s.offset ≥ s.allContacts.length
  · simp [hg, h]
  · simp only [hg, if_false, reduceIte]
    rw [h]
    exact (List.take_add s.allContacts s.offset pageSize).symm

lemma client_inv_iter (pageSize : Nat) (k : Nat) :
    ∀ s : ClientState, s.visibleContacts = s.allContacts.take s.offset →
      (iterLoadMore pageSize k s).visibleContacts
        = (iterLoadMore pageSize k s).allContacts.take (iterLoadMore pageSize k s).offset := by
  induction k with
  | zero => intro s h; exact h
  | succ k ih =>
      intro s h
      simp only [iterLoadMore]
      exact ih _ (client_inv_step pageSize s h)

lemma client_inv_run (pageSize : Nat) (o : FetchOutcome) (k : Nat) :
    (clientRun pageSize o k).visibleContacts
      = (clientRun pageSize o k).allContacts.take (clientRun pageSize o k).offset := by
  apply client_inv_iter
  cases o with
  | failure => simp [loadAllContacts, initClient]
  | success result =>
      by_cases hp : result.length > 0
      · simp [loadAllContacts, hp]
      · simp [loadAllContacts, hp, initClient]

lemma client_slice (pageSize : Nat) (s : ClientState)
    (h : s.offset < s.allContacts.length) :
    loadMoreData_client pageSize s
      = { allContacts := s.allContacts,
          visibleContacts :=
            s.visibleContacts ++ ((s.allContacts.drop s.offset).take pageSize),
          offset := s.offset + pageSize,
          isLoading := false } := by
  unfold loadMoreData_client
  rw [if_neg (by omega)]

/-- C8: the client-cache variant's published `allLoaded` getter is NOT the
pure negation of `visibleCount < totalCachedCount`: it carries an extra
`allContacts.length > 0` conjunct, so after the initial fetch of an empty
dataset `allLoaded` is false (i.e. the derived hasMore reads true) even
though `visibleCount < totalCachedCount` is false. -/
theorem C8_empty_cache_refuted :
    c8_empty = loadAllContacts 5 (.success [])
      ∧ allLoaded_client c8_empty = false
      ∧ ¬ (c8_empty.visibleContacts.length < c8_empty.allContacts.length) := by
  decide

/-- C8 (amended): after the single initial fetch and any number of
load-more triggers, the resident cache is never re-fetched or modified
(`loadMoreData` takes no fetch outcome at all and preserves
`allContacts`), a load-more with `offset < totalCachedCount` appends
exactly the cache slice `[offset, offset + pageSize)`, the visible list is
always a prefix of the cached full set, and `allLoaded` equals
`visibleCount ≥ totalCachedCount AND totalCachedCount > 0` — whose
negation agrees with `visibleCount < totalCachedCount` exactly when the
cache is non-empty. -/
theorem C8_client_cache_amended (pageSize : Nat) (o : FetchOutcome) (k : Nat) :
    ((clientRun pageSize o k).visibleContacts
        = (clientRun pageSize o k).allContacts.take
            (clientRun pageSize o k).visibleContacts.length)
      ∧ (loadMoreData_client pageSize (clientRun pageSize o k)).allContacts
          = (clientRun pageSize o k).allContacts
      ∧ ((clientRun pageSize o k).offset < (clientRun pageSize o k).allContacts.length →
          loadMoreData_client pageSize (clientRun pageSize o k)
            = { allContacts := (clientRun pageSize o k).allContacts,
                visibleContacts := (clientRun pageSize o k).visibleContacts
                  ++ (((clientRun pageSize o k).allContacts.drop
                        (clientRun pageSize o k).offset).take pageSize),
                offset := (clientRun pageSize o k).offset + pageSize,
                isLoading := false })
      ∧ (allLoaded_client (clientRun pageSize o k) = true
          ↔ ((clientRun pageSize o k).allContacts.length
                ≤ (clientRun pageSize o k).visibleContacts.length
              ∧ 0 < (clientRun pageSize o k).allContacts.length))
      ∧ ((clientRun pageSize o k).allContacts ≠ [] →
          (allLoaded_client (clientRun pageSize o k) = false
            ↔ (clientRun pageSize o k).visibleContacts.length
                < (clientRun pageSize o k).allContacts.length)) := by
  refine ⟨?_, loadMoreData_client_cache pageSize _, client_slice pageSize _, ?_, ?_⟩
  · have hinv := client_inv_run pageSize o k
    rw [hinv, List.length_take, take_min_eq]
  · simp [allLoaded_client, and_comm]
  · intro h
    have hlen : 0 < (clientRun pageSize o k).allContacts.length := List.length_pos.mpr h
    simp [allLoaded_client, hlen, Nat.not_le]

/-- Witness for C8's amended theorem at pageSize 5, a 6-record dataset and
one load-more trigger. -/
theorem C8_client_cache_amended_witness :
    ((clientRun 5 (.success [10, 20, 30, 40, 50, 60]) 1).visibleContacts
        = (clientRun 5 (.success [10, 20, 30, 40, 50, 60]) 1).allContacts.take
            (clientRun 5 (.success [10, 20, 30, 40, 50, 60]) 1).visibleContacts.length)
      ∧ (loadMoreData_client 5 (clientRun 5 (.success [10, 20, 30, 40, 50, 60]) 0)).allContacts
          = (clientRun 5 (.success [10, 20, 30, 40, 50, 60]) 0).allContacts
      ∧ loadMoreData_client 5 (clientRun 5 (.success [10, 20, 30, 40, 50, 60]) 0)
          = { allContacts := (clientRun 5 (.success [10, 20, 30, 40, 50, 60]) 0).allContacts,
              visibleContacts := (clientRun 5 (.success [10, 20, 30, 40, 50, 60]) 0).visibleContacts
                ++ (((clientRun 5 (.success [10, 20, 30, 40, 50, 60]) 0).allContacts.drop
                      (clientRun 5 (.success [10, 20, 30, 40, 50, 60]) 0).offset).take 5),
              offset := (clientRun 5 (.success [10, 20, 30, 40, 50, 60]) 0).offset + 5,
              isLoading := false }
      ∧ (allLoaded_client (clientRun 5 (.success [10, 20, 30, 40, 50, 60]) 1) = false
          ↔ (clientRun 5 (.success [10, 20, 30, 40, 50, 60]) 1).visibleContacts.length
              < (clientRun 5 (.success [10, 20, 30, 40, 50, 60]) 1).allContacts.length) :=
  ⟨(C8_client_cache_amended 5 (.success [10, 20, 30, 40, 50, 60]) 1).1,
   (C8_client_cache_amended 5 (.success [10, 20, 30, 40, 50, 60]) 0).2.1,
   (C8_client_cache_amended 5 (.success [10, 20, 30, 40, 50, 60]) 0).2.2.1 (by decide),
   (C8_client_cache_amended 5 (.success [10, 20, 30, 40, 50, 60]) 1).2.2.2.2 (by decide)⟩

/-- C9: in the scroll variants, a scroll event whose remaining unscrolled
distance `scrollHeight - scrollTop - clientHeight` is at least the 10 px
buffer issues no fetch and changes nothing, whatever the flags say; and a
fetch is issued only when that distance is below the buffer and no fetch is
in flight. -/
theorem C9_scroll_buffer (scrollTop scrollHeight clientHeight : Int) (pageSize : Nat)
    (s : LoaderState) (o : FetchOutcome) :
    (10 ≤ scrollHeight - scrollTop - clientHeight →
        handleScroll scrollTop scrollHeight clientHeight pageSize s o = (s, false))
      ∧ ((handleScroll scrollTop scrollHeight clientHeight pageSize s o).2 = true →
          scrollHeight - scrollTop - clientHeight < 10 ∧ s.isLoading = false)
      ∧ ∀ c : ClientState, 10 ≤ scrollHeight - scrollTop - clientHeight →
          handleScroll_client scrollTop scrollHeight clientHeight pageSize c = c := by
  refine ⟨?_, ?_, ?_⟩
  · intro h
    unfold handleScroll
    rw [if_neg]
    rintro ⟨h1, _⟩
    omega
  · intro h
    by_cases hc : scrollHeight - scrollTop - clientHeight < 10 ∧ s.isLoading = false
    · exact hc
    · unfold handleScroll at h
      rw [if_neg hc] at h
      simp at h
  · intro c h
    unfold handleScroll_client
    rw [if_neg]
    rintro ⟨h1, _⟩
    omega

/-- Witness for C9 at concrete geometries: distance 50 ≥ 10 issues nothing;
distance 5 < 10 with an idle loader issues a fetch. -/
theorem C9_scroll_buffer_witness :
    handleScroll 0 100 50 5 initState (.success [1, 2, 3, 4, 5]) = (initState, false)
      ∧ ((100 : Int) - 95 - 0 < 10 ∧ initState.isLoading = false)
      ∧ handleScroll_client 0 100 50 5 initClient = initClient :=
  ⟨(C9_scroll_buffer 0 100 50 5 initState (.success [1, 2, 3, 4, 5])).1 (by decide),
   (C9_scroll_buffer 95 100 0 5 initState (.success [1, 2, 3, 4, 5])).2.1 (by decide),
   (C9_scroll_buffer 0 100 50 5 initState (.success [1, 2, 3, 4, 5])).2.2 initClient (by decide)⟩

end SalesforceLazyLoad
